import Mathlib

/-!
Verification development for the docker-logentries forwarding core
(src/index.js).  The JavaScript program is shallowly embedded: events are
insertion-ordered association lists of JavaScript values, the through-stream
`filter` becomes a pure function from an event to an optional wire record,
and the stream-lifecycle logic of `start`/`pipe`/`streamClosed` becomes a
step function on an explicit system state driven by a trace of completion
and close events.  Regular-expression matching is an external capability of
the JavaScript runtime, so it is a parameter `rmatch : String → String → Bool`
taking the pattern text and the subject text.
-/

set_option autoImplicit false

/-- JavaScript values, as far as the program manipulates them: strings,
numbers, booleans and objects.  Objects are insertion-ordered association
lists, matching the enumeration and serialization order of JS objects. -/
inductive JsVal where
  | vstr : String → JsVal
  | vnum : Int → JsVal
  | vbool : Bool → JsVal
  | vobj : List (String × JsVal) → JsVal

/-- An event flowing through the pipeline: a JS object, i.e. an
insertion-ordered association list from field name to value. -/
abbrev Event := List (String × JsVal)

/-- JavaScript truthiness of a value: empty strings and zero are falsy,
objects are always truthy. -/
def truthy : JsVal → Bool
  | .vstr s => decide (s ≠ "")
  | .vnum n => decide (n ≠ 0)
  | .vbool b => b
  | .vobj _ => true

/-- Field lookup on a JS object: the value at the first (and, for a JS
object, only) binding of the key, or none when the field is absent. -/
def getField : Event → String → Option JsVal
  | [], _ => none
  | (k2, v) :: rest, k => if k2 = k then some v else getField rest k

/-- Truthiness of an optional field, as tested by `if (obj.line)`:
an absent field is undefined, hence falsy. -/
def truthyField (obj : Event) (k : String) : Bool :=
  match getField obj k with
  | none => false
  | some v => truthy v

/-- JavaScript String() coercion, as applied by `String(obj.name)`:
an absent field is undefined and coerces to the text "undefined";
objects coerce to their default tag. -/
def jsToString : JsVal → String
  | .vstr s => s
  | .vnum n => toString n
  | .vbool b => cond b "true" "false"
  | .vobj _ => "[object Object]"

/-- String() coercion of an optional field value. -/
def jsStringOf : Option JsVal → String
  | none => "undefined"
  | some v => jsToString v

/-- Assignment `obj[key] = v` on a JS object: overwrite the value in place
when the key exists (keeping its position), otherwise append the binding. -/
def setField : Event → String → JsVal → Event
  | [], k, v => [(k, v)]
  | (k2, w) :: rest, k, v =>
      if k2 = k then (k, v) :: rest else (k2, w) :: setField rest k v

/-- Embedding of `addAll(proto, obj)` (src/index.js lines 144-153): when
`proto` is falsy (undefined) do nothing, otherwise copy every own
key/value pair of `proto` into `obj`, in enumeration order, overwriting
existing fields. -/
def addAll (proto : Option (List (String × JsVal))) (obj : Event) : Event :=
  match proto with
  | none => obj
  | some p => p.foldl (fun acc kv => setField acc kv.1 kv.2) obj

/-- The configuration record consumed by `start` (the relevant options). -/
structure Opts where
  logstoken : String
  statstoken : String
  eventstoken : String
  matchByName : String
  matchByImage : String
  skipByName : String
  skipByImage : String
  add : Option (List (String × JsVal))
  logs : Bool
  stats : Bool
  dockerEvents : Bool
  secure : Bool

/-- Token selection of the filter (src/index.js lines 43-53): `token`
starts as the empty string and is set from the first truthy field among
`line`, `type`, `stats`, in that order. -/
def selectToken (opts : Opts) (obj : Event) : String :=
  if truthyField obj "line" then opts.logstoken
  else if truthyField obj "type" then opts.eventstoken
  else if truthyField obj "stats" then opts.statstoken
  else ""

/-- The four sequential pattern checks of the filter (src/index.js lines
55-84): `passes_regex` starts true; each non-empty pattern is tested
against the String() coercion of the `name` or `image` field, and a
failing inclusive match or a succeeding exclusive match sets it to false. -/
def passesRegex (rmatch : String → String → Bool) (opts : Opts) (obj : Event) : Bool :=
  let nameStr := jsStringOf (getField obj "name")
  let imageStr := jsStringOf (getField obj "image")
  let pr := true
  let pr := if opts.matchByName ≠ "" then
      (if rmatch opts.matchByName nameStr then pr else false) else pr
  let pr := if opts.matchByImage ≠ "" then
      (if rmatch opts.matchByImage imageStr then pr else false) else pr
  let pr := if opts.skipByName ≠ "" then
      (if rmatch opts.skipByName nameStr then false else pr) else pr
  let pr := if opts.skipByImage ≠ "" then
      (if rmatch opts.skipByImage imageStr then false else pr) else pr
  pr

/-- JSON string escaping for the characters JSON.stringify escapes in the
strings this program serializes. -/
def jsonEscapeChar (c : Char) : String :=
  if c = '"' then "\\\""
  else if c = '\\' then "\\\\"
  else if c = '\n' then "\\n"
  else if c = '\r' then "\\r"
  else if c = '\t' then "\\t"
  else String.singleton c

/-- A JSON string literal: double quotes around the escaped text. -/
def jsonQuote (s : String) : String :=
  "\"" ++ String.join (s.toList.map jsonEscapeChar) ++ "\""

mutual

/-- JSON.stringify on a JS value: strings are quoted and escaped, numbers
and booleans print themselves, objects list their fields in insertion
order between braces. -/
def stringify : JsVal → String
  | .vstr s => jsonQuote s
  | .vnum n => toString n
  | .vbool b => cond b "true" "false"
  | .vobj fields => "\x7b" ++ String.intercalate "," (stringifyFields fields) ++ "\x7d"

/-- Serialized key:value fragments of an object, in insertion order. -/
def stringifyFields : List (String × JsVal) → List String
  | [] => []
  | (k, v) :: rest => (jsonQuote k ++ ":" ++ stringify v) :: stringifyFields rest

end

/-- The wire record the filter pushes for a passing event (src/index.js
lines 86-91): the token, a single space, the JSON serialization of the
event object and a newline, concatenated on the byte stream. -/
def encodeRecord (token : String) (obj : Event) : String :=
  token ++ " " ++ stringify (.vobj obj) ++ "\n"

/-- Routing and encoding applied to the event as the filter sees it after
enrichment: emit the record when the selected token is truthy (non-empty)
and the pattern checks pass, otherwise drop (src/index.js lines 43-91). -/
def routeAndEncode (rmatch : String → String → Bool) (opts : Opts) (obj : Event) :
    Option String :=
  let token := selectToken opts obj
  if token ≠ "" && passesRegex rmatch opts obj then
    some (encodeRecord token obj)
  else
    none

/-- Embedding of the whole through-stream body (src/index.js lines 41-94):
enrich the event in place with `opts.add`, then route and encode it.  The
result is the record written to the output connection, or none when the
event is dropped. -/
def filter (rmatch : String → String → Bool) (opts : Opts) (obj : Event) :
    Option String :=
  routeAndEncode rmatch opts (addAll opts.add obj)

example : truthyField [("line", JsVal.vstr "hello")] "line" = true := by decide
example : truthyField [("line", JsVal.vstr "")] "line" = false := by decide
example : jsStringOf (getField [] "name") = "undefined" := by decide

/-! Concrete configurations and inputs used in examples and witnesses. -/

/-- A concrete substring-free pattern matcher used to instantiate the
`rmatch` parameter at concrete inputs: a pattern matches exactly the
subject equal to it. -/
def rmEq : String → String → Bool := fun p s => p == s

/-- The configuration of the end-to-end example: logs token "ABC", all
four patterns empty, enrichment adds host=myhost. -/
def c6Opts : Opts :=
  { logstoken := "ABC", statstoken := "", eventstoken := ""
    matchByName := "", matchByImage := "", skipByName := "", skipByImage := ""
    add := some [("host", JsVal.vstr "myhost")]
    logs := true, stats := true, dockerEvents := true, secure := false }

/-- The raw event of the end-to-end example. -/
def ev6 : Event :=
  [("line", JsVal.vstr "hello"), ("name", JsVal.vstr "web1"), ("image", JsVal.vstr "nginx")]

/-- Token-routing example configuration: only the logs token is set. -/
def c2Opts : Opts :=
  { logstoken := "LT1", statstoken := "", eventstoken := ""
    matchByName := "", matchByImage := "", skipByName := "", skipByImage := ""
    add := none
    logs := true, stats := true, dockerEvents := true, secure := false }

/-- A configuration whose enrichment set itself introduces a truthy
discriminant field `line`. -/
def c9Opts : Opts :=
  { logstoken := "T", statstoken := "", eventstoken := ""
    matchByName := "", matchByImage := "", skipByName := "", skipByImage := ""
    add := some [("line", JsVal.vstr "x")]
    logs := true, stats := true, dockerEvents := true, secure := false }

/-! Helper lemmas about the filter stage. -/

/-- Normal form of the four sequential pattern checks: their conjunction. -/
lemma passesRegex_eq (rmatch : String → String → Bool) (opts : Opts) (obj : Event) :
    passesRegex rmatch opts obj =
      ((decide (opts.matchByName = "") || rmatch opts.matchByName (jsStringOf (getField obj "name"))) &&
       (decide (opts.matchByImage = "") || rmatch opts.matchByImage (jsStringOf (getField obj "image"))) &&
       (decide (opts.skipByName = "") || !rmatch opts.skipByName (jsStringOf (getField obj "name"))) &&
       (decide (opts.skipByImage = "") || !rmatch opts.skipByImage (jsStringOf (getField obj "image")))) := by
  unfold passesRegex
  dsimp only
  generalize rmatch opts.matchByName (jsStringOf (getField obj "name")) = a
  generalize rmatch opts.matchByImage (jsStringOf (getField obj "image")) = b
  generalize rmatch opts.skipByName (jsStringOf (getField obj "name")) = c
  generalize rmatch opts.skipByImage (jsStringOf (getField obj "image")) = d
  by_cases h1 : opts.matchByName = "" <;> by_cases h2 : opts.matchByImage = "" <;>
    by_cases h3 : opts.skipByName = "" <;> by_cases h4 : opts.skipByImage = "" <;>
    simp [h1, h2, h3, h4] <;>
    cases a <;> cases b <;> cases c <;> cases d <;> rfl

/-- A failing pattern check drops the event: no record is pushed. -/
lemma filter_none_of_not_passes (rmatch : String → String → Bool) (opts : Opts)
    (obj : Event) (h : passesRegex rmatch opts (addAll opts.add obj) = false) :
    filter rmatch opts obj = none := by
  unfold filter routeAndEncode
  simp [h]

/-- An empty selected token drops the event. -/
lemma filter_none_of_token_empty (rmatch : String → String → Bool) (opts : Opts)
    (obj : Event) (h : selectToken opts (addAll opts.add obj) = "") :
    filter rmatch opts obj = none := by
  unfold filter routeAndEncode
  simp [h]

/-- Setting a field then reading it back gives the written value. -/
lemma getField_setField_self (obj : Event) (k : String) (v : JsVal) :
    getField (setField obj k v) k = some v := by
  induction obj with
  | nil => simp [setField, getField]
  | cons p rest ih =>
    obtain ⟨k2, w⟩ := p
    by_cases h : k2 = k
    · simp [setField, getField, h]
    · simp [setField, getField, h, ih]

/-- Setting a field leaves every other field unchanged. -/
lemma getField_setField_ne (obj : Event) (k k2 : String) (v : JsVal) (h : k2 ≠ k) :
    getField (setField obj k v) k2 = getField obj k2 := by
  induction obj with
  | nil => simp [setField, getField, Ne.symm h]
  | cons p rest ih =>
    obtain ⟨k3, w⟩ := p
    by_cases h3 : k3 = k
    · subst h3
      simp [setField, getField, Ne.symm h]
    · simp only [setField, if_neg h3, getField]
      by_cases h32 : k3 = k2
      · simp [h32]
      · simp [h32, ih]

/-- Unfolding of enrichment over a cons cell. -/
lemma addAll_cons (p : String × JsVal) (rest : List (String × JsVal)) (obj : Event) :
    addAll (some (p :: rest)) obj = addAll (some rest) (setField obj p.1 p.2) := rfl

/-- Enrichment does not touch fields whose key is not an enrichment key. -/
lemma getField_addAll_not_mem (proto : List (String × JsVal)) (obj : Event) (k : String)
    (h : k ∉ proto.map Prod.fst) :
    getField (addAll (some proto) obj) k = getField obj k := by
  induction proto generalizing obj with
  | nil => rfl
  | cons p rest ih =>
    simp only [List.map_cons, List.mem_cons, not_or] at h
    rw [addAll_cons, ih (setField obj p.1 p.2) h.2, getField_setField_ne obj p.1 k p.2 h.1]

/-- Enrichment installs every enrichment binding: for a duplicate-free
enrichment set, each of its pairs is afterwards readable on the event. -/
lemma getField_addAll_mem (proto : List (String × JsVal)) (obj : Event) (k : String)
    (v : JsVal) (hnd : (proto.map Prod.fst).Nodup) (hmem : (k, v) ∈ proto) :
    getField (addAll (some proto) obj) k = some v := by
  induction proto generalizing obj with
  | nil => cases hmem
  | cons p rest ih =>
    simp only [List.map_cons, List.nodup_cons] at hnd
    rcases List.mem_cons.mp hmem with h | h
    · subst h
      rw [addAll_cons, getField_addAll_not_mem rest (setField obj k v) k hnd.1]
      exact getField_setField_self obj k v
    · rw [addAll_cons]
      exact ih (setField obj p.1 p.2) hnd.2 h

/-- Configuration used in the C1 witness: skipByName is an active pattern
that matches the text "undefined" under rmEq. -/
def c1WOpts : Opts :=
  { c2Opts with skipByName := "undefined" }

/-- C1: Policy Filter truth table.  For every enriched event and every
configuration of the four patterns, the sequential checks of the filter
pass iff every non-empty inclusive pattern matches the corresponding
field and every non-empty exclusive pattern does not match it; the four
checks are AND-combined, and a failing combination drops the event. -/
theorem c1_policy_filter_truth_table (rmatch : String → String → Bool) (opts : Opts)
    (obj : Event) :
    (passesRegex rmatch opts obj =
      ((decide (opts.matchByName = "") || rmatch opts.matchByName (jsStringOf (getField obj "name"))) &&
       (decide (opts.matchByImage = "") || rmatch opts.matchByImage (jsStringOf (getField obj "image"))) &&
       (decide (opts.skipByName = "") || !rmatch opts.skipByName (jsStringOf (getField obj "name"))) &&
       (decide (opts.skipByImage = "") || !rmatch opts.skipByImage (jsStringOf (getField obj "image")))))
    ∧ (passesRegex rmatch opts (addAll opts.add obj) = false →
        filter rmatch opts obj = none) :=
  ⟨passesRegex_eq rmatch opts obj, filter_none_of_not_passes rmatch opts obj⟩

/-- Witness for C1 at a concrete input: with skipByName = "undefined" and
an event with no name field, the checks fail and the event is dropped. -/
theorem c1_policy_filter_truth_table_witness :
    passesRegex rmEq c1WOpts (addAll c1WOpts.add [("line", JsVal.vstr "hi")]) = false ∧
    filter rmEq c1WOpts [("line", JsVal.vstr "hi")] = none :=
  ⟨by decide,
   (c1_policy_filter_truth_table rmEq c1WOpts [("line", JsVal.vstr "hi")]).2 (by decide)⟩

/-- C2 counterexample: the claim says an event with a `line` field is
forwarded with token "LT1" when logstoken is "LT1" and the other tokens
are unset.  The code tests JS truthiness, not field presence: an event
whose `line` field is present but holds the empty string selects no
token and is dropped. -/
theorem c2_counterexample :
    filter rmEq c2Opts [("line", JsVal.vstr "")] = none := by decide

/-- C2 amended: token routing by the first truthy discriminant field.
The filter determines the event kind from the truthiness (JS sense:
present with a non-empty string, non-zero number, or object value) of
`line`, `type`, `stats` in that priority order, attaches the
corresponding configured token, and drops the event when the selected
token is empty or unset.  With logstoken "LT1" and the other tokens
unset, an event with a non-empty `line` is forwarded with token "LT1"
and a stats event is dropped, for every matcher. -/
theorem c2_token_routing (rmatch : String → String → Bool) (opts : Opts) (obj : Event) :
    (truthyField obj "line" = true → selectToken opts obj = opts.logstoken)
  ∧ (truthyField obj "line" = false → truthyField obj "type" = true →
        selectToken opts obj = opts.eventstoken)
  ∧ (truthyField obj "line" = false → truthyField obj "type" = false →
        truthyField obj "stats" = true → selectToken opts obj = opts.statstoken)
  ∧ (selectToken opts (addAll opts.add obj) = "" → filter rmatch opts obj = none)
  ∧ (∀ rm : String → String → Bool,
        filter rm c2Opts [("line", JsVal.vstr "hello")] =
          some "LT1 \x7b\"line\":\"hello\"\x7d\n")
  ∧ (∀ rm : String → String → Bool,
        filter rm c2Opts [("stats", JsVal.vobj [("cpu", JsVal.vnum 1)])] = none) := by
  refine ⟨?_, ?_, ?_, filter_none_of_token_empty rmatch opts obj, fun rm => rfl, fun rm => rfl⟩
  · intro h1
    simp [selectToken, h1]
  · intro h1 h2
    simp [selectToken, h1, h2]
  · intro h1 h2 h3
    simp [selectToken, h1, h2, h3]

/-- Witness for C2 at concrete inputs: a non-empty line event selects the
logs token, and a stats event under the same configuration is dropped. -/
theorem c2_token_routing_witness :
    selectToken c2Opts [("line", JsVal.vstr "hello")] = c2Opts.logstoken ∧
    filter rmEq c2Opts [("stats", JsVal.vobj [("cpu", JsVal.vnum 1)])] = none :=
  ⟨(c2_token_routing rmEq c2Opts [("line", JsVal.vstr "hello")]).1 (by decide),
   (c2_token_routing rmEq c2Opts [("stats", JsVal.vobj [("cpu", JsVal.vnum 1)])]).2.2.2.2.2 rmEq⟩

/-- C5: Enrichment precedence.  Enrichment is merged into the event
before routing, filtering and encoding (the filter stage is exactly
routeAndEncode applied to the enriched event); every enrichment
key/value pair lands on the event with overwrite semantics (an
enrichment key overrides any same-named field, other fields are
untouched); in particular enrichment host=h1 replaces an existing host
field. -/
theorem c5_enrichment_precedence :
    (∀ (proto : List (String × JsVal)) (obj : Event) (k : String) (v : JsVal),
        (proto.map Prod.fst).Nodup → (k, v) ∈ proto →
        getField (addAll (some proto) obj) k = some v)
  ∧ (∀ (proto : List (String × JsVal)) (obj : Event) (k : String),
        k ∉ proto.map Prod.fst →
        getField (addAll (some proto) obj) k = getField obj k)
  ∧ (∀ (rmatch : String → String → Bool) (opts : Opts) (obj : Event),
        filter rmatch opts obj = routeAndEncode rmatch opts (addAll opts.add obj))
  ∧ getField (addAll (some [("host", JsVal.vstr "h1")])
        [("host", JsVal.vstr "h0"), ("line", JsVal.vstr "x")]) "host" =
      some (JsVal.vstr "h1") :=
  ⟨fun proto obj k v hnd hmem => getField_addAll_mem proto obj k v hnd hmem,
   fun proto obj k h => getField_addAll_not_mem proto obj k h,
   fun _ _ _ => rfl,
   by rfl⟩

/-- Witness for C5 at a concrete input: enrichment host=h1 overrides an
existing host field. -/
theorem c5_enrichment_precedence_witness :
    getField (addAll (some [("host", JsVal.vstr "h1")]) [("host", JsVal.vstr "h0")]) "host" =
      some (JsVal.vstr "h1") :=
  c5_enrichment_precedence.1 [("host", JsVal.vstr "h1")] [("host", JsVal.vstr "h0")]
    "host" (JsVal.vstr "h1") (by simp) (by simp)

/-- C6: Wire format.  Every record the filter emits is the token, one
space, the JSON serialization of the enriched event, and a newline; and
the end-to-end example event with enrichment host=myhost under logs
token "ABC" and empty patterns produces exactly the expected record,
for every matcher. -/
theorem c6_wire_format :
    (∀ (rmatch : String → String → Bool) (opts : Opts) (obj : Event) (r : String),
        filter rmatch opts obj = some r →
        r = selectToken opts (addAll opts.add obj) ++ " " ++
              stringify (.vobj (addAll opts.add obj)) ++ "\n")
  ∧ (∀ rmatch : String → String → Bool,
        filter rmatch c6Opts ev6 =
          some "ABC \x7b\"line\":\"hello\",\"name\":\"web1\",\"image\":\"nginx\",\"host\":\"myhost\"\x7d\n") := by
  constructor
  · intro rmatch opts obj r h
    unfold filter routeAndEncode at h
    dsimp only at h
    split_ifs at h
    exact ((Option.some.injEq _ _).mp h).symm
  · intro rmatch
    rfl

/-- Witness for C6 at the concrete end-to-end example input. -/
theorem c6_wire_format_witness :
    ("ABC \x7b\"line\":\"hello\",\"name\":\"web1\",\"image\":\"nginx\",\"host\":\"myhost\"\x7d\n" : String) =
      selectToken c6Opts (addAll c6Opts.add ev6) ++ " " ++
        stringify (.vobj (addAll c6Opts.add ev6)) ++ "\n" :=
  c6_wire_format.1 rmEq c6Opts ev6 _ (by decide)

/-- C9 counterexample: the claim says an event with none of the three
discriminant fields never reaches the wire, but enrichment runs before
the discriminant check, so a configuration whose enrichment set itself
contains a truthy `line` binding turns a discriminant-free event into a
log event that is forwarded. -/
theorem c9_counterexample :
    filter rmEq c9Opts [] = some "T \x7b\"line\":\"x\"\x7d\n" := by decide

/-- C9 amended: for every event whose enriched form has none of `line`,
`type`, `stats` present, no token is selected and the event is dropped;
the filter stage is a total function, so processing continues without
failure. -/
theorem c9_undefined_event_drop (rmatch : String → String → Bool) (opts : Opts)
    (obj : Event)
    (h1 : getField (addAll opts.add obj) "line" = none)
    (h2 : getField (addAll opts.add obj) "type" = none)
    (h3 : getField (addAll opts.add obj) "stats" = none) :
    filter rmatch opts obj = none := by
  apply filter_none_of_token_empty
  simp [selectToken, truthyField, h1, h2, h3]

/-- Witness for C9 at a concrete input: an event with only a foo field,
no enrichment, is dropped. -/
theorem c9_undefined_event_drop_witness :
    filter rmEq c2Opts [("foo", JsVal.vstr "y")] = none :=
  c9_undefined_event_drop rmEq c2Opts [("foo", JsVal.vstr "y")] (by rfl) (by rfl) (by rfl)

/-- C10: missing identity fields are matched as the text "undefined".
For an event without a name field, String() coercion yields "undefined",
every active name pattern is evaluated against "undefined": the event is
dropped when skipByName matches "undefined", and a non-empty matchByName
lets it pass only if that pattern matches "undefined"; and symmetrically
for a missing image field. -/
theorem c10_missing_identity_matches_undefined (rmatch : String → String → Bool)
    (opts : Opts) (obj : Event) :
    (getField obj "name" = none →
        jsStringOf (getField obj "name") = "undefined"
      ∧ (opts.skipByName ≠ "" → rmatch opts.skipByName "undefined" = true →
            passesRegex rmatch opts obj = false)
      ∧ (opts.matchByName ≠ "" → passesRegex rmatch opts obj = true →
            rmatch opts.matchByName "undefined" = true))
  ∧ (getField obj "image" = none →
        jsStringOf (getField obj "image") = "undefined"
      ∧ (opts.skipByImage ≠ "" → rmatch opts.skipByImage "undefined" = true →
            passesRegex rmatch opts obj = false)
      ∧ (opts.matchByImage ≠ "" → passesRegex rmatch opts obj = true →
            rmatch opts.matchByImage "undefined" = true)) := by
  constructor
  · intro h
    refine ⟨by rw [h]; rfl, ?_, ?_⟩
    · intro hs hr
      rw [passesRegex_eq, h]
      simp [jsStringOf, hs, hr]
    · intro hm hp
      rw [passesRegex_eq, h] at hp
      simp [jsStringOf, hm] at hp
      tauto
  · intro h
    refine ⟨by rw [h]; rfl, ?_, ?_⟩
    · intro hs hr
      rw [passesRegex_eq, h]
      simp [jsStringOf, hs, hr]
    · intro hm hp
      rw [passesRegex_eq, h] at hp
      simp [jsStringOf, hm] at hp
      tauto

/-- Witness for C10 at a concrete input: skipByName = "undefined" under
rmEq drops an event with no name field. -/
theorem c10_missing_identity_matches_undefined_witness :
    jsStringOf (getField ([] : Event) "name") = "undefined" ∧
    passesRegex rmEq c1WOpts ([] : Event) = false := by
  have h := (c10_missing_identity_matches_undefined rmEq c1WOpts ([] : Event)).1 (by rfl)
  exact ⟨h.1, h.2.1 (by decide) (by decide)⟩

/-!
Lifecycle model of `start` (src/index.js lines 96-173).  After setup the
system holds: the open-source counter `streamsOpened`, the current output
transport (numbered by `gen`, the count of connect calls), the transport
the filter output is piped to (`attached`), whether the end-of-stream
subscription that re-runs `pipe` on transport close is still active
(`armed`, cancelled by `noRestart()`), how many times `out.destroy()` has
run (`destroyCount`), and the list of transports that received records
(`writes`).  The single-threaded event loop delivers three kinds of
notifications: a source handle completes (graceful end or error alike,
`eos` fires its callback once), the output transport closes, or the
filter emits a record.
-/

/-- State of the lifecycle model. -/
structure SysState where
  streamsOpened : Int
  gen : Nat
  attached : Nat
  armed : Bool
  destroyCount : Nat
  writes : List Nat

/-- Notifications delivered by the event loop. -/
inductive SysEv where
  | srcEnd
  | outClosed
  | emit
deriving DecidableEq

/-- Embedding of `pipe()` (src/index.js lines 155-166): unpipe the old
transport, connect a new one, re-attach the filter output to it, and
re-arm the end-of-stream subscription that re-runs pipe on close. -/
def pipeStep (s : SysState) : SysState :=
  { s with gen := s.gen + 1, attached := s.gen + 1, armed := true }

/-- One event-loop step.  A source completion decrements `streamsOpened`
and runs `streamClosed` on the decremented value (src/index.js lines
129-140 and 168-173): at zero or below it cancels the reconnect
subscription (`noRestart()`) and then destroys the transport.  A
transport close re-runs `pipe` when the subscription is still armed and
does nothing otherwise.  An emitted record is written to the transport
the filter is currently attached to. -/
def sysStep (s : SysState) : SysEv → SysState
  | .srcEnd =>
      let opened := s.streamsOpened - 1
      if opened ≤ 0 then
        { s with streamsOpened := opened, armed := false,
                 destroyCount := s.destroyCount + 1 }
      else
        { s with streamsOpened := opened }
  | .outClosed => if s.armed then pipeStep s else s
  | .emit => { s with writes := s.writes ++ [s.attached] }

/-- State right after `start` finished setting up with n enabled source
handles: counter at n, initial `pipe()` done (transport 1 connected,
attached, subscription armed), nothing destroyed, nothing written. -/
def initState (n : Nat) : SysState :=
  { streamsOpened := n, gen := 1, attached := 1, armed := true,
    destroyCount := 0, writes := [] }

/-- Run the event loop from the post-setup state over a trace. -/
def sysRun (n : Nat) (tr : List SysEv) : SysState :=
  tr.foldl sysStep (initState n)

/-- Invariant of the lifecycle model: the filter output is attached to
the current transport, the reconnect subscription is armed exactly while
a source is still open, the transport has been destroyed exactly once
after the last source closed and never before, and the counter never
goes negative. -/
def SysInv (s : SysState) : Prop :=
  s.attached = s.gen ∧
  s.armed = decide (0 < s.streamsOpened) ∧
  s.destroyCount = (if 0 < s.streamsOpened then 0 else 1) ∧
  0 ≤ s.streamsOpened

/-- Preservation and counter law: over any trace whose source-completion
count does not exceed the currently open sources, the counter drops by
exactly the number of source completions and the invariant is preserved. -/
lemma sysRun_inv (tr : List SysEv) (s : SysState) (hinv : SysInv s)
    (hcnt : ((tr.count SysEv.srcEnd : Nat) : Int) ≤ s.streamsOpened) :
    (tr.foldl sysStep s).streamsOpened =
        s.streamsOpened - ((tr.count SysEv.srcEnd : Nat) : Int) ∧
    SysInv (tr.foldl sysStep s) := by
  induction tr generalizing s with
  | nil => simpa using hinv
  | cons e rest ih =>
    obtain ⟨ha, harm, hd, hnn⟩ := hinv
    have hstep : List.foldl sysStep s (e :: rest) =
        List.foldl sysStep (sysStep s e) rest := rfl
    cases e with
    | srcEnd =>
      have hcount : ((rest.count SysEv.srcEnd : Nat) : Int) + 1 ≤ s.streamsOpened := by
        have hc : (SysEv.srcEnd :: rest).count SysEv.srcEnd =
            rest.count SysEv.srcEnd + 1 := by simp [List.count_cons]
        rw [hc] at hcnt
        push_cast at hcnt
        omega
      have hpos : 0 < s.streamsOpened := by omega
      by_cases hz : s.streamsOpened - 1 ≤ 0
      · have hs1 : sysStep s SysEv.srcEnd =
            { s with streamsOpened := s.streamsOpened - 1, armed := false,
                     destroyCount := s.destroyCount + 1 } := by
          simp [sysStep, hz]
        have hopen : (sysStep s SysEv.srcEnd).streamsOpened = s.streamsOpened - 1 := by
          rw [hs1]
        have h2 : ¬ (0 < s.streamsOpened - 1) := by omega
        have hinv2 : SysInv (sysStep s SysEv.srcEnd) := by
          rw [hs1]
          refine ⟨ha, ?_, ?_, ?_⟩
          · show false = decide (0 < s.streamsOpened - 1)
            simp [h2]
          · show s.destroyCount + 1 = if 0 < s.streamsOpened - 1 then 0 else 1
            rw [hd]
            simp [hpos, h2]
          · show (0 : Int) ≤ s.streamsOpened - 1
            omega
        have hrest := ih (sysStep s SysEv.srcEnd) hinv2 (by rw [hopen]; omega)
        rw [hstep]
        refine ⟨?_, hrest.2⟩
        rw [hrest.1, hopen]
        simp [List.count_cons]
        omega
      · have hs1 : sysStep s SysEv.srcEnd =
            { s with streamsOpened := s.streamsOpened - 1 } := by
          simp [sysStep, hz]
        have hopen : (sysStep s SysEv.srcEnd).streamsOpened = s.streamsOpened - 1 := by
          rw [hs1]
        have h2 : 0 < s.streamsOpened - 1 := by omega
        have hinv2 : SysInv (sysStep s SysEv.srcEnd) := by
          rw [hs1]
          refine ⟨ha, ?_, ?_, ?_⟩
          · show s.armed = decide (0 < s.streamsOpened - 1)
            rw [harm]
            simp [hpos, h2]
          · show s.destroyCount = if 0 < s.streamsOpened - 1 then 0 else 1
            rw [hd]
            simp [hpos, h2]
          · show (0 : Int) ≤ s.streamsOpened - 1
            omega
        have hrest := ih (sysStep s SysEv.srcEnd) hinv2 (by rw [hopen]; omega)
        rw [hstep]
        refine ⟨?_, hrest.2⟩
        rw [hrest.1, hopen]
        simp [List.count_cons]
        omega
    | outClosed =>
      have hcnt2 : ((rest.count SysEv.srcEnd : Nat) : Int) ≤ s.streamsOpened := by
        have hc : (SysEv.outClosed :: rest).count SysEv.srcEnd =
            rest.count SysEv.srcEnd := by simp [List.count_cons]
        rw [hc] at hcnt
        exact hcnt
      by_cases harm2 : s.armed = true
      · have hpos : 0 < s.streamsOpened := by
          rw [harm] at harm2
          exact of_decide_eq_true harm2
        have hs1 : sysStep s SysEv.outClosed = pipeStep s := by
          simp [sysStep, harm2]
        have hinv2 : SysInv (sysStep s SysEv.outClosed) := by
          rw [hs1]
          refine ⟨rfl, ?_, ?_, ?_⟩
          · show true = decide (0 < s.streamsOpened)
            simp [hpos]
          · show s.destroyCount = if 0 < s.streamsOpened then 0 else 1
            exact hd
          · exact hnn
        have hopen : (sysStep s SysEv.outClosed).streamsOpened = s.streamsOpened := by
          rw [hs1]
          rfl
        have hrest := ih (sysStep s SysEv.outClosed) hinv2 (by rw [hopen]; exact hcnt2)
        rw [hstep]
        refine ⟨?_, hrest.2⟩
        rw [hrest.1, hopen]
        simp [List.count_cons]
      · have hs1 : sysStep s SysEv.outClosed = s := by
          simp [sysStep, harm2]
        have hrest := ih (sysStep s SysEv.outClosed) (by rw [hs1]; exact ⟨ha, harm, hd, hnn⟩)
          (by rw [hs1]; exact hcnt2)
        rw [hstep]
        refine ⟨?_, hrest.2⟩
        rw [hrest.1, hs1]
        simp [List.count_cons]
    | emit =>
      have hcnt2 : ((rest.count SysEv.srcEnd : Nat) : Int) ≤ s.streamsOpened := by
        have hc : (SysEv.emit :: rest).count SysEv.srcEnd =
            rest.count SysEv.srcEnd := by simp [List.count_cons]
        rw [hc] at hcnt
        exact hcnt
      have hs1 : sysStep s SysEv.emit = { s with writes := s.writes ++ [s.attached] } := rfl
      have hinv2 : SysInv (sysStep s SysEv.emit) := ⟨ha, harm, hd, hnn⟩
      have hopen : (sysStep s SysEv.emit).streamsOpened = s.streamsOpened := rfl
      have hrest := ih (sysStep s SysEv.emit) hinv2 (by rw [hopen]; exact hcnt2)
      rw [hstep]
      refine ⟨?_, hrest.2⟩
      rw [hrest.1, hopen]
      simp [List.count_cons]

/-- The invariant holds right after setup with at least one source. -/
lemma initState_inv (n : Nat) (hn : 1 ≤ n) : SysInv (initState n) := by
  have hpos : (0 : Int) < (n : Nat) := by exact_mod_cast hn
  exact ⟨rfl, by simp [initState, hpos], by simp [initState, hpos], by simp [initState]⟩

/-- C3: open-count invariant and single shutdown.  For n enabled source
handles and any event-loop trace in which each handle completes exactly
once (n srcEnd notifications, in any order, with any interleaving of
transport closures and record emissions), the counter starts at n, drops
by exactly one per completion over every prefix, ends at exactly 0, and
the shutdown (reconnect subscription cancelled, then transport
destroyed) runs exactly once. -/
theorem c3_open_count_single_shutdown (n : Nat) (tr : List SysEv) (hn : 1 ≤ n)
    (hall : tr.count SysEv.srcEnd = n) :
    (sysRun n []).streamsOpened = (n : Int)
  ∧ (∀ pre suf, tr = pre ++ suf →
        (sysRun n pre).streamsOpened = (n : Int) - ((pre.count SysEv.srcEnd : Nat) : Int))
  ∧ (sysRun n tr).streamsOpened = 0
  ∧ (sysRun n tr).destroyCount = 1 := by
  have hinv0 := initState_inv n hn
  have hfull := sysRun_inv tr (initState n) hinv0 (by rw [hall]; exact le_refl _)
  have h0 : (tr.foldl sysStep (initState n)).streamsOpened = 0 := by
    rw [hfull.1, hall]
    show ((n : Nat) : Int) - ((n : Nat) : Int) = 0
    omega
  refine ⟨rfl, ?_, h0, ?_⟩
  · intro pre suf heq
    have hle : pre.count SysEv.srcEnd ≤ n := by
      rw [heq, List.count_append] at hall
      omega
    have h := sysRun_inv pre (initState n) hinv0
      (by show ((pre.count SysEv.srcEnd : Nat) : Int) ≤ ((n : Nat) : Int); exact_mod_cast hle)
    show (pre.foldl sysStep (initState n)).streamsOpened =
        (n : Int) - ((pre.count SysEv.srcEnd : Nat) : Int)
    rw [h.1]
    rfl
  · obtain ⟨_, _, hdc, _⟩ := hfull.2
    show (tr.foldl sysStep (initState n)).destroyCount = 1
    rw [hdc, h0]
    simp

/-- Witness for C3 at a concrete input: two sources completing around an
intervening transport closure. -/
theorem c3_open_count_single_shutdown_witness :
    (sysRun 2 [SysEv.srcEnd, SysEv.outClosed, SysEv.srcEnd]).streamsOpened = 0 ∧
    (sysRun 2 [SysEv.srcEnd, SysEv.outClosed, SysEv.srcEnd]).destroyCount = 1 :=
  ⟨(c3_open_count_single_shutdown 2 [SysEv.srcEnd, SysEv.outClosed, SysEv.srcEnd]
      (by decide) (by decide)).2.2.1,
   (c3_open_count_single_shutdown 2 [SysEv.srcEnd, SysEv.outClosed, SysEv.srcEnd]
      (by decide) (by decide)).2.2.2⟩

/-- C4: reconnect continuity.  In every state reachable from setup with n
sources (each completing at most once along the trace), a transport
closure while at least one source remains open establishes a fresh
transport against the same configured endpoint, re-attaches the filter
output to it, and keeps the reconnect subscription armed, so a
subsequently emitted record is written to the new transport; once the
counter has reached zero (shutdown has disarmed reconnection and
destroyed the transport), a transport closure causes no reconnect at
all. -/
theorem c4_reconnect_continuity (n : Nat) (tr : List SysEv) (hn : 1 ≤ n)
    (hcnt : ((tr.count SysEv.srcEnd : Nat) : Int) ≤ (n : Int)) :
    (1 ≤ (sysRun n tr).streamsOpened →
        sysStep (sysRun n tr) SysEv.outClosed =
          { sysRun n tr with gen := (sysRun n tr).gen + 1,
                             attached := (sysRun n tr).gen + 1, armed := true }
      ∧ (sysStep (sysStep (sysRun n tr) SysEv.outClosed) SysEv.emit).writes =
          (sysRun n tr).writes ++ [(sysRun n tr).gen + 1])
  ∧ ((sysRun n tr).streamsOpened ≤ 0 →
        sysStep (sysRun n tr) SysEv.outClosed = sysRun n tr) := by
  have hinv0 := initState_inv n hn
  have hfull := sysRun_inv tr (initState n) hinv0 hcnt
  obtain ⟨ha, harm, hd, hnn⟩ := hfull.2
  have harm : (sysRun n tr).armed = decide (0 < (sysRun n tr).streamsOpened) := harm
  constructor
  · intro hopen
    have hpos : 0 < (sysRun n tr).streamsOpened := by omega
    have harm2 : (sysRun n tr).armed = true := by
      rw [harm]
      simp [hpos]
    constructor
    · show (if (sysRun n tr).armed = true then pipeStep (sysRun n tr) else (sysRun n tr)) = _
      rw [harm2]
      rfl
    · show (sysStep (if (sysRun n tr).armed = true then pipeStep (sysRun n tr)
          else (sysRun n tr)) SysEv.emit).writes = _
      rw [harm2]
      rfl
  · intro hzero
    have hz : ¬ (0 < (sysRun n tr).streamsOpened) := by omega
    have harm2 : (sysRun n tr).armed = false := by
      rw [harm]
      simp [hz]
    show (if (sysRun n tr).armed = true then pipeStep (sysRun n tr) else (sysRun n tr)) = _
    rw [harm2]
    simp

/-- Witness for C4 at a concrete input: one source still open right after
setup, a transport closure reconnects as transport 2. -/
theorem c4_reconnect_continuity_witness :
    1 ≤ (sysRun 1 []).streamsOpened ∧
    sysStep (sysRun 1 []) SysEv.outClosed =
      { sysRun 1 [] with gen := (sysRun 1 []).gen + 1,
                         attached := (sysRun 1 []).gen + 1, armed := true } :=
  ⟨by decide,
   ((c4_reconnect_continuity 1 [] (by decide) (by decide)).1 (by decide)).1⟩

/-!
Startup and connection models.  `start` (src/index.js lines 96-126)
creates one source handle per channel whose enable flag is not false and
whose token is truthy, counts them, throws when none was created, and
only then calls `pipe()`, which performs the first `connect`.  `connect`
(src/index.js lines 18-32) opens a TLS transport in secure mode and
checks `stream.authorized` when the handshake completes, throwing an
uncaught error (process crash) when the peer is unauthenticated.
-/

/-- A channel is enabled when its flag is not false and its token is
truthy (non-empty), mirroring `opts.logs !== false && opts.logstoken`. -/
def channelEnabled (flag : Bool) (token : String) : Bool :=
  flag && decide (token ≠ "")

/-- Number of source handles `start` creates (streamsOpened after setup). -/
def enabledChannels (opts : Opts) : Nat :=
  (if channelEnabled opts.logs opts.logstoken then 1 else 0) +
  (if channelEnabled opts.stats opts.statstoken then 1 else 0) +
  (if channelEnabled opts.dockerEvents opts.eventstoken then 1 else 0)

/-- Externally observable startup actions of `start`, in program order. -/
inductive StartAct where
  | fatalConfigError (msg : String)
  | connectOut
deriving DecidableEq

/-- Startup sequence of `start`: create the source handles, then either
throw the configuration error (when no handle was created) or run
`pipe()`, whose first step is the connect. -/
def startActs (opts : Opts) : List StartAct :=
  if enabledChannels opts = 0 then
    [StartAct.fatalConfigError
      "You must provide a key for at least one of logs, stats, or dockerEvents"]
  else
    [StartAct.connectOut]

/-- C7: zero-channel fatal error.  When every channel is disabled (its
flag false or its token empty), startup raises the fatal configuration
error and never attempts the output connection. -/
theorem c7_zero_channel_fatal (opts : Opts)
    (hl : opts.logs = false ∨ opts.logstoken = "")
    (hs : opts.stats = false ∨ opts.statstoken = "")
    (he : opts.dockerEvents = false ∨ opts.eventstoken = "") :
    startActs opts =
      [StartAct.fatalConfigError
        "You must provide a key for at least one of logs, stats, or dockerEvents"]
  ∧ StartAct.connectOut ∉ startActs opts := by
  have h0 : enabledChannels opts = 0 := by
    unfold enabledChannels channelEnabled
    rcases hl with hl | hl <;> rcases hs with hs | hs <;> rcases he with he | he <;>
      simp [hl, hs, he]
  refine ⟨by simp [startActs, h0], ?_⟩
  simp [startActs, h0]

/-- Witness for C7 at a concrete input: all three tokens empty. -/
theorem c7_zero_channel_fatal_witness :
    startActs { c2Opts with logstoken := "" } =
      [StartAct.fatalConfigError
        "You must provide a key for at least one of logs, stats, or dockerEvents"] :=
  (c7_zero_channel_fatal { c2Opts with logstoken := "" }
    (Or.inr rfl) (Or.inr rfl) (Or.inr rfl)).1

/-- Outcome of one `connect` call. -/
inductive ConnectOutcome where
  | fatal (msg : String)
  | connected (secureMode : Bool)
deriving DecidableEq

/-- Model of `connect` (src/index.js lines 18-32): in secure mode the
handshake-completion callback checks `stream.authorized` and throws when
the peer is unauthenticated (an uncaught exception, so the process
terminates); otherwise the transport is established.  Plain mode never
performs the check. -/
def connectModel (secureMode authorized : Bool) : ConnectOutcome :=
  if secureMode then
    if !authorized then ConnectOutcome.fatal "secure connection not authorized"
    else ConnectOutcome.connected true
  else ConnectOutcome.connected false

/-- C8: fail-closed secure connect.  A secure-mode connection whose
handshake completes without the peer being authorized yields the fatal
error, and only then: the fatal outcome happens exactly for the
unauthenticated case, and an unauthenticated secure handshake never
yields a connected transport, so it can never feed the close-triggered
reconnect machinery (which only ever reacts to a connected transport
closing). -/
theorem c8_fail_closed_secure (a : Bool) :
    (a = false → connectModel true a =
        ConnectOutcome.fatal "secure connection not authorized")
  ∧ (∀ msg, connectModel true a = ConnectOutcome.fatal msg → a = false)
  ∧ (a = false → ∀ sm, connectModel true a ≠ ConnectOutcome.connected sm) := by
  refine ⟨?_, ?_, ?_⟩
  · intro h
    simp [connectModel, h]
  · intro msg h
    cases a with
    | false => rfl
    | true => simp [connectModel] at h
  · intro h sm
    simp [connectModel, h]

/-- Witness for C8 at the concrete unauthenticated input. -/
theorem c8_fail_closed_secure_witness :
    connectModel true false = ConnectOutcome.fatal "secure connection not authorized" :=
  (c8_fail_closed_secure false).1 rfl
